import Mathlib

/-!
Verification of the delivery engine of `waanverse_mailer/email_service.py`
(`EnhancedEmailService`): recipient validation, message construction, the
single/parallel/batch/retry send strategies, the lazy transport connection,
and the transactional dispatcher.

The Python code is shallowly embedded: pure helpers become Lean functions,
the mutable service instance becomes explicit state passing on a
`ServiceState`, raised exceptions become `Except` values, and external
collaborators (Django's template renderer, the SMTP transport, file
attachments) become oracle fields of an `Env` record.  Observable side
effects (log calls, thread starts, transport submissions, sleeps) are
recorded in an explicit event trace.
-/

namespace WaanverseMailer

/-! ## Recipient validator (`EnhancedEmailService.validate_email`)

The Python code compiles the regex
`^[a-zA-Z0-9._%+-]+@[a-zA-Z0-9.-]+\.[a-zA-Z]{2,}$` and returns
`bool(match and len(email) <= 254 and len(email.split("@")[0]) <= 64)`,
with an empty-string fast path and a catch-all `except` returning `False`.
The matcher below is deterministic: since none of the character classes
contain `@`, a matching string decomposes uniquely at its first `@`, and
since the top-level-domain class contains no `.`, the domain part
decomposes uniquely at the last `.`.  Python's `re.match` (no
`re.MULTILINE`) lets `$` match at the end of the string **or just before
a newline that ends the string**, so the pattern also accepts a matching
address followed by one final `'\n'`; the model includes that case. -/

/-- Character class `[a-zA-Z0-9._%+-]` (the local part of the regex). -/
def isLocalChar (c : Char) : Bool :=
  c.isAlphanum || c == '.' || c == '_' || c == '%' || c == '+' || c == '-'

/-- Character class `[a-zA-Z0-9.-]` (the domain part of the regex). -/
def isDomainChar (c : Char) : Bool :=
  c.isAlphanum || c == '.' || c == '-'

/-- Split a list at the first occurrence of `x`: returns the part strictly
before and strictly after it, or `none` when `x` does not occur. -/
def splitFirst (x : Char) : List Char → Option (List Char × List Char)
  | [] => none
  | c :: cs =>
    if c = x then some ([], cs)
    else
      match splitFirst x cs with
      | some (l, r) => some (c :: l, r)
      | none => none

/-- Python's `email.split("@")[0]`: everything before the first `@`, or the
whole string when there is no `@`. -/
def localPart (s : String) : List Char :=
  match splitFirst '@' s.data with
  | some (l, _) => l
  | none => s.data

/-- Whether the regex core `[a-zA-Z0-9._%+-]+@[a-zA-Z0-9.-]+\.[a-zA-Z]{2,}`
matches the whole character list. -/
def matchCore (cs : List Char) : Bool :=
  match splitFirst '@' cs with
  | none => false
  | some (l, r) =>
    (!l.isEmpty && l.all isLocalChar) &&
    (match splitFirst '.' r.reverse with
     | none => false
     | some (trev, drev) =>
       (decide (2 ≤ trev.length) && trev.all Char.isAlpha) &&
       (!drev.isEmpty && drev.all isDomainChar))

/-- Python `re.match` of `^[a-zA-Z0-9._%+-]+@[a-zA-Z0-9.-]+\.[a-zA-Z]{2,}$`:
the match succeeds when the core covers the whole string, or — because
`$` also matches just before a newline that ends the string — everything
except one final `'\n'`. -/
def matchEmailPattern (s : String) : Bool :=
  matchCore s.data ||
  (match s.data.reverse with
   | [] => false
   | c :: rest => c == '\n' && matchCore rest.reverse)

/-- `EnhancedEmailService.validate_email`, translated line by line.  The
`try/except` of the source cannot fire in the embedding (every operation is
total), matching the spec's "internal errors yield false".  The function is
a plain function of the string: no state, no side effects. -/
def validate_email (email : String) : Bool :=
  if email = "" then false
  else
    matchEmailPattern email &&
    decide (email.length ≤ 254) &&
    decide ((localPart email).length ≤ 64)

/-- The claim's reading of the regex core: some decomposition
`local ++ "@" ++ domain ++ "." ++ tld` with nonempty all-local-chars local
part, nonempty all-domain-chars domain, and a tld of at least two letters. -/
def EmailPatternCore (cs : List Char) : Prop :=
  ∃ l d t : List Char,
    cs = l ++ '@' :: (d ++ '.' :: t) ∧
    l ≠ [] ∧ l.all isLocalChar = true ∧
    d ≠ [] ∧ d.all isDomainChar = true ∧
    2 ≤ t.length ∧ t.all Char.isAlpha = true

/-- "`s` matches the pattern" under Python `re.match` semantics: the core
matches the whole string, or the string ends in a single `'\n'` and the
core matches everything before it. -/
def EmailPatternSpec (s : String) : Prop :=
  EmailPatternCore s.data ∨
  ∃ cs : List Char, s.data = cs ++ ['\n'] ∧ EmailPatternCore cs

lemma splitFirst_some_eq {x : Char} {cs l r : List Char}
    (h : splitFirst x cs = some (l, r)) : cs = l ++ x :: r ∧ x ∉ l := by
  induction cs generalizing l r with
  | nil => simp [splitFirst] at h
  | cons c cs ih =>
    by_cases hc : c = x
    · subst hc
      simp only [splitFirst, if_pos rfl, Option.some.injEq, Prod.mk.injEq] at h
      obtain ⟨rfl, rfl⟩ := h
      simp
    · simp only [splitFirst, if_neg hc] at h
      cases hs : splitFirst x cs with
      | none => rw [hs] at h; exact absurd h (by simp)
      | some p =>
        obtain ⟨l', r'⟩ := p
        rw [hs] at h
        simp only [Option.some.injEq, Prod.mk.injEq] at h
        obtain ⟨rfl, rfl⟩ := h
        obtain ⟨heq, hmem⟩ := ih hs
        refine ⟨by rw [heq]; rfl, ?_⟩
        simp only [List.mem_cons, not_or]
        exact ⟨fun hx => hc hx.symm, hmem⟩

lemma splitFirst_of_decomp {x : Char} {l r : List Char} (hl : x ∉ l) :
    splitFirst x (l ++ x :: r) = some (l, r) := by
  induction l with
  | nil => simp [splitFirst]
  | cons c l ih =>
    have hc : ¬ c = x := fun h => hl (h ▸ List.mem_cons_self c l)
    simp only [List.cons_append, splitFirst, if_neg hc, List.append_eq]
    rw [ih (fun h => hl (List.mem_cons_of_mem c h))]

lemma not_mem_of_all {p : Char → Bool} {l : List Char} {x : Char}
    (hall : l.all p = true) (hx : p x = false) : x ∉ l := by
  intro hmem
  have := List.all_eq_true.mp hall x hmem
  rw [hx] at this
  exact Bool.noConfusion this

lemma all_reverse_of_all {p : Char → Bool} {l : List Char} (h : l.all p = true) :
    l.reverse.all p = true := by
  rw [List.all_eq_true] at h ⊢
  exact fun x hx => h x (List.mem_reverse.mp hx)

lemma ne_nil_of_isEmpty_false {l : List Char} (h : l.isEmpty = false) : l ≠ [] := by
  intro he
  subst he
  simp at h

lemma isEmpty_false_of_ne_nil {l : List Char} (h : l ≠ []) : l.isEmpty = false := by
  cases l with
  | nil => exact absurd rfl h
  | cons a l => rfl

lemma reverse_mid (d t : List Char) (x : Char) :
    (d ++ x :: t).reverse = t.reverse ++ x :: d.reverse := by
  simp [List.reverse_append, List.reverse_cons, List.append_assoc]

/-- The deterministic core matcher agrees with the declarative reading of
the regex core `[a-zA-Z0-9._%+-]+@[a-zA-Z0-9.-]+\.[a-zA-Z]{2,}`. -/
lemma matchCore_iff (cs : List Char) :
    matchCore cs = true ↔ EmailPatternCore cs := by
  constructor
  · intro h
    unfold matchCore at h
    split at h
    · exact absurd h (by simp)
    · rename_i l r hs
      split at h
      · exact absurd h (by simp)
      · rename_i trev drev ht
        simp only [Bool.and_eq_true, Bool.not_eq_true', decide_eq_true_eq] at h
        obtain ⟨⟨hle, hlall⟩, ⟨htlen, htall⟩, hdne, hdall⟩ := h
        obtain ⟨hcseq, -⟩ := splitFirst_some_eq hs
        obtain ⟨hreq, -⟩ := splitFirst_some_eq ht
        have hr : r = drev.reverse ++ '.' :: trev.reverse := by
          rw [← List.reverse_reverse r, hreq, reverse_mid]
        refine ⟨l, drev.reverse, trev.reverse, ?_, ne_nil_of_isEmpty_false hle,
          hlall, ?_, all_reverse_of_all hdall, ?_, all_reverse_of_all htall⟩
        · rw [hcseq, hr]
        · intro hrev
          exact ne_nil_of_isEmpty_false hdne (by rwa [List.reverse_eq_nil_iff] at hrev)
        · rwa [List.length_reverse]
  · rintro ⟨l, d, t, hcseq, hlne, hlall, hdne, hdall, htlen, htall⟩
    have hat_l : '@' ∉ l := not_mem_of_all hlall (by decide)
    have hdot_t : '.' ∉ t.reverse := fun hm =>
      (not_mem_of_all htall (by decide)) (List.mem_reverse.mp hm)
    unfold matchCore
    simp only [hcseq, splitFirst_of_decomp hat_l, reverse_mid,
      splitFirst_of_decomp hdot_t]
    have hdrev : d.reverse ≠ [] := fun hrev =>
      hdne (by rwa [List.reverse_eq_nil_iff] at hrev)
    simp only [Bool.and_eq_true, Bool.not_eq_true', decide_eq_true_eq]
    exact ⟨⟨isEmpty_false_of_ne_nil hlne, hlall⟩,
      ⟨by rwa [List.length_reverse], all_reverse_of_all htall⟩,
      isEmpty_false_of_ne_nil hdrev, all_reverse_of_all hdall⟩

/-- The full matcher agrees with the pattern under Python `re.match`
semantics: a core match of the whole string, or of everything before a
single trailing `'\n'`. -/
lemma matchEmailPattern_iff (s : String) :
    matchEmailPattern s = true ↔ EmailPatternSpec s := by
  unfold matchEmailPattern EmailPatternSpec
  rw [Bool.or_eq_true, matchCore_iff]
  refine or_congr Iff.rfl ?_
  constructor
  · intro h
    cases hrev : s.data.reverse with
    | nil => rw [hrev] at h; exact absurd h (by simp)
    | cons c rest =>
      rw [hrev] at h
      simp only [Bool.and_eq_true, beq_iff_eq] at h
      obtain ⟨rfl, hcore⟩ := h
      refine ⟨rest.reverse, ?_, (matchCore_iff _).mp hcore⟩
      have hdata := congrArg List.reverse hrev
      rw [List.reverse_reverse] at hdata
      rw [hdata, List.reverse_cons]
  · rintro ⟨cs, hcs, hcore⟩
    have hrev : s.data.reverse = '\n' :: cs.reverse := by
      rw [hcs]
      simp [List.reverse_append]
    rw [hrev]
    simp only [beq_self_eq_true, Bool.true_and, List.reverse_reverse]
    exact (matchCore_iff cs).mpr hcore

/-- Claim C1: `validate_email(s)` returns true if and only if `s` is
non-empty, matches `^[A-Za-z0-9._%+-]+@[A-Za-z0-9.-]+\.[A-Za-z]{2,}$`,
has total length at most 254, and has a local part (substring before the
first `@`) of length at most 64.  "Matches" is Python `re.match`
semantics, where `$` also matches just before a newline that ends the
string (`EmailPatternSpec`'s second disjunct).  In the embedding the
function is total (the source's `try/except` cannot fire) and is a plain
function of the string, so the result depends only on `s`. -/
theorem C1_validate_email (s : String) :
    validate_email s = true ↔
      (s ≠ "" ∧ EmailPatternSpec s ∧ s.length ≤ 254 ∧ (localPart s).length ≤ 64) := by
  unfold validate_email
  by_cases he : s = ""
  · subst he
    simp [EmailPatternSpec]
  · rw [if_neg he]
    simp only [Bool.and_eq_true, decide_eq_true_eq, matchEmailPattern_iff]
    tauto

/-! ## Service model

`EnhancedEmailService` holds one piece of mutable state: the lazily
established transport connection (`self._connection`).  Connection handles
are modelled as natural numbers issued by a counter, so that "the same
logical connection" is plain equality of handles.  External collaborators
(Django settings, the template renderer, `strip_tags`, file attachment
reading, and the SMTP transport) are oracle fields of `Env`; configuration
values of `EmailConfig` live there too. -/

/-- A template context dictionary (`dict` of strings in the source). -/
abbrev Ctx := List (String × String)

/-- Configuration knobs (`EmailConfig`) plus the external collaborators of
the service, immutable during a call. -/
structure Env where
  MAX_RECIPIENTS : Nat
  BATCH_SIZE : Nat
  THREAD_POOL_SIZE : Nat
  /-- `email_config.email_threading_enabled`. -/
  threadingEnabled : Bool
  /-- Whether `django.core.mail.get_connection(...)` succeeds. -/
  connectOk : Bool
  /-- `render_to_string(path, context)`: `none` models `TemplateNotFound`. -/
  render : String → Ctx → Option String
  /-- `django.utils.html.strip_tags`. -/
  strip_tags : String → String
  /-- `settings.DEFAULT_FROM_EMAIL`. -/
  from_email : String
  /-- The four platform-metadata fields merged into every context. -/
  platformCtx : Ctx
  /-- Whether `msg.attach_file(path)` succeeds. -/
  attachOk : String → Bool
  /-- Outcome of `EmailMultiAlternatives.send()` for a message with the
  given recipient list. -/
  sendOk : List String → Bool
  /-- Outcome of `connection.send_messages(...)` for a chunk whose
  messages go to the given recipients. -/
  sendMessagesOk : List String → Bool

/-- The mutable part of an `EnhancedEmailService` instance. -/
structure ServiceState where
  /-- `self._connection` (`None` until first establishment). -/
  cachedConnection : Option Nat
  /-- How many connections have been established so far; doubles as the
  next fresh handle. -/
  establishCount : Nat
deriving DecidableEq

/-- State of a freshly constructed service (`__init__`). -/
def initialState : ServiceState := ⟨none, 0⟩

/-- Python exceptions that the delivery engine raises or catches. -/
inductive EmailError where
  | valueError (msg : String)
  | connectionError
  | templateNotFound (path : String)
  | transportError
  | keyError (key : String)
  | attachError (path : String)
  | unknownEventType (event : String)
deriving DecidableEq

/-- Observable side effects, recorded in order. -/
inductive Event where
  /-- A transport connection was successfully established. -/
  | establishConnection
  /-- `render_to_string` was invoked on this template path. -/
  | renderTemplate (path : String)
  /-- An `EmailMultiAlternatives` for these recipients was constructed. -/
  | buildMessage (recipients : List String)
  /-- `EmailThread(...).start()`: a detached fire-and-forget send. -/
  | startThread (recipients : List String)
  /-- `connection.send_messages(...)` over one batch chunk. -/
  | sendMessages (recipients : List String)
  /-- `msg.send()` for a single message. -/
  | sendOne (recipients : List String)
  /-- `logger.error(...)` recording this failure. -/
  | logErr (e : EmailError)
  /-- `logger.info(...)` success entry. -/
  | logInfo
  /-- `time.sleep(delay)`. -/
  | sleep (seconds : Nat)
deriving DecidableEq

/-- A recipient argument: the source accepts a bare string or a list. -/
inductive RecipientArg where
  | str (s : String)
  | list (l : List String)

/-- `if isinstance(recipient_list, str): recipient_list = [recipient_list]`. -/
def normalizeRecipients : RecipientArg → List String
  | .str s => [s]
  | .list l => l

/-- `dict.update`: entries of `upd` overwrite those of `c`. -/
def pyUpdate (c upd : Ctx) : Ctx :=
  c.filter (fun p => (upd.lookup p.1).isNone) ++ upd

/-- An `EmailMultiAlternatives` as built by `prepare_email_message`. -/
structure Msg where
  subject : String
  body : String
  from_email : String
  toRecipients : List String
  connection : Nat
  alternatives : List (String × String)
  attachments : List String
  extra_headers : List (String × String)
deriving DecidableEq

/-- The `connection` property: returns the cached handle, or establishes
one (`get_connection`), caching it; on failure the error is logged and
re-raised, and nothing is cached. -/
def connection (env : Env) (st : ServiceState) :
    Except EmailError Nat × ServiceState × List Event :=
  match st.cachedConnection with
  | some c => (.ok c, st, [])
  | none =>
    if env.connectOk then
      (.ok st.establishCount,
        ⟨some st.establishCount, st.establishCount + 1⟩,
        [.establishConnection])
    else
      (.error .connectionError, st, [.logErr .connectionError])

/-- `f"emails/{template_name}.html"`. -/
def templatePath (template_name : String) : String :=
  "emails/" ++ template_name ++ ".html"

/-- `msg.attach_file(path)` for each attachment; the first unreadable
path raises. -/
def attachAll (env : Env) : List String → Except EmailError Unit
  | [] => .ok ()
  | p :: ps => if env.attachOk p then attachAll env ps else .error (.attachError p)

/-- `prepare_email_message`: merge platform metadata into the context,
render the template, derive the plain body, normalize the recipients,
construct the message on the service connection, attach files, and set
the priority header.  Any step may raise (`Except.error`). -/
def prepare_email_message (env : Env) (subject template_name : String)
    (context : Ctx) (recipient_arg : RecipientArg) (priority : String)
    (attachments : Option (List String)) (st : ServiceState) :
    Except EmailError Msg × ServiceState × List Event :=
  let path := templatePath template_name
  let ctx := pyUpdate context env.platformCtx
  match env.render path ctx with
  | none => (.error (.templateNotFound path), st, [.renderTemplate path])
  | some html =>
    let plain := env.strip_tags html
    let rl := normalizeRecipients recipient_arg
    match connection env st with
    | (.error e, st', evs) => (.error e, st', .renderTemplate path :: evs)
    | (.ok conn, st', evs) =>
      match attachAll env (attachments.getD []) with
      | .error e => (.error e, st', .renderTemplate path :: evs)
      | .ok _ =>
        (.ok { subject := subject, body := plain, from_email := env.from_email,
               toRecipients := rl, connection := conn,
               alternatives := [(html, "text/html")],
               attachments := attachments.getD [],
               extra_headers :=
                 if priority == "high" then [("X-Priority", "1")] else [] },
         st', .renderTemplate path :: evs ++ [.buildMessage rl])

/-- The Python default of `send_email`'s `async_send` parameter
(`async_send: bool = True`). -/
def async_send_default : Bool := true

/-- The body of `send_email`'s `try:` block: normalize recipients, fail on
too many recipients (`raise ValueError`), build the message, then either
start a detached `EmailThread` (fire-and-forget, no delivery confirmation)
or send synchronously; on success `logger.info` fires inside the block. -/
def send_email_try (env : Env) (subject template_name : String) (context : Ctx)
    (recipient_arg : RecipientArg) (priority : String)
    (attachments : Option (List String)) (asyncSend : Bool)
    (st : ServiceState) : Except EmailError Unit × ServiceState × List Event :=
  let recipient_list := normalizeRecipients recipient_arg
  if recipient_list.length > env.MAX_RECIPIENTS then
    (.error (.valueError
        ("Too many recipients (max " ++ toString env.MAX_RECIPIENTS ++ ")")),
      st, [])
  else
    match prepare_email_message env subject template_name context
        (.list recipient_list) priority attachments st with
    | (.error e, st', evs) => (.error e, st', evs)
    | (.ok msg, st', evs) =>
      if asyncSend && env.threadingEnabled then
        (.ok (), st', evs ++ [.startThread msg.toRecipients, .logInfo])
      else
        if env.sendOk msg.toRecipients then
          (.ok (), st', evs ++ [.sendOne msg.toRecipients, .logInfo])
        else
          (.error .transportError, st', evs ++ [.sendOne msg.toRecipients])

/-- `send_email`: the whole `try:` body above wrapped in the catch-all
`except Exception`, which logs the failure with contextual fields and
returns `False`.  No exception escapes this method. -/
def send_email (env : Env) (subject template_name : String) (context : Ctx)
    (recipient_arg : RecipientArg) (priority : String)
    (attachments : Option (List String)) (asyncSend : Bool)
    (st : ServiceState) : Bool × ServiceState × List Event :=
  match send_email_try env subject template_name context recipient_arg
      priority attachments asyncSend st with
  | (.ok _, st', evs) => (true, st', evs)
  | (.error e, st', evs) => (false, st', evs ++ [.logErr e])

/-- The static lookup table of `send_transactional_email`. -/
def transactional_templates : List (String × String) :=
  [("welcome", "welcome_email"),
   ("password_reset", "password_reset"),
   ("account_verification", "account_verification")]

/-- Python `str.replace("_", " ")` (single-character replacement). -/
def pyReplaceUnderscore (s : String) : String :=
  ⟨s.data.map (fun c => if c = '_' then ' ' else c)⟩

/-- Python `str.title()`: uppercase a letter not preceded by a letter,
lowercase a letter preceded by one. -/
def pyTitleGo : Bool → List Char → List Char
  | _, [] => []
  | prevAlpha, c :: cs =>
    (if prevAlpha then c.toLower else c.toUpper) :: pyTitleGo c.isAlpha cs

/-- Python `str.title()`. -/
def pyTitle (s : String) : String := ⟨pyTitleGo false s.data⟩

/-- `f"Waanverse - {event_type.replace('_', ' ').title()}"`. -/
def transactional_subject (event_type : String) : String :=
  "Waanverse - " ++ pyTitle (pyReplaceUnderscore event_type)

/-- `send_transactional_email`: map the event type through the static
table; unknown events are logged and reported as failure without any send;
known events delegate to `send_email` with the mapped template, the
derived subject, and `send_email`'s default `async_send` (the enclosing
`try/except` cannot fire since `send_email` never raises). -/
def send_transactional_email (env : Env) (recipient : String)
    (event_type : String) (context : Ctx) (st : ServiceState) :
    Bool × ServiceState × List Event :=
  match transactional_templates.lookup event_type with
  | none => (false, st, [.logErr (.unknownEventType event_type)])
  | some template =>
    send_email env (transactional_subject event_type) template context
      (.str recipient) "medium" none async_send_default st

/-- Structural worker for `chunkList`; `fuel` bounds the recursion depth
(any `fuel ≥ l.length` gives the same result). -/
def chunkGo (bs : Nat) : Nat → List String → List (List String)
  | _, [] => []
  | 0, _ :: _ => []
  | fuel + 1, x :: xs => (x :: xs).take bs :: chunkGo bs fuel (xs.drop (bs - 1))

/-- `recipient_list[i : i + BATCH_SIZE]` chunking: consecutive chunks in
input order.  Meaningful for `bs > 0` (Python's `range` with step 0 would
raise). -/
def chunkList (bs : Nat) (l : List String) : List (List String) :=
  chunkGo bs l.length l

/-- The failure record `{"recipient": recipient, "error": str(e)}` built by
`send_batch_emails`.  Record values are either strings or context dicts
(`retry_failed_emails` stores a context under `"context"`). -/
inductive RecVal where
  | s (v : String)
  | c (v : Ctx)
deriving DecidableEq

/-- A Python dict used as a failed-recipient record. -/
abbrev Record := List (String × RecVal)

/-- `failed["key"]`: raises `KeyError` when the key is absent. -/
def recGet (r : Record) (k : String) : Except EmailError RecVal :=
  match r.lookup k with
  | some v => .ok v
  | none => .error (.keyError k)

def recValStr : RecVal → String
  | .s v => v
  | .c _ => ""

def recValCtx : RecVal → Ctx
  | .c v => v
  | .s _ => []

/-- The record appended for each recipient of a failed chunk. -/
def failureRecord (recipient errMsg : String) : Record :=
  [("recipient", .s recipient), ("error", .s errMsg)]

/-- Counts and records returned by `send_batch_emails`. -/
structure BatchResult where
  success_count : Nat
  failure_count : Nat
  failed_recipients : List Record
deriving DecidableEq

/-- Build one message per recipient of a chunk (the list comprehension in
`send_batch_emails`); a raising build aborts the whole method, since the
comprehension sits outside the `try:`. -/
def prepare_batch (env : Env) (subject template_name : String) (context : Ctx)
    (batch : List String) (st : ServiceState) :
    Except EmailError (List Msg) × ServiceState × List Event :=
  match batch with
  | [] => (.ok [], st, [])
  | r :: rs =>
    match prepare_email_message env subject template_name context
        (.list [r]) "medium" none st with
    | (.error e, st', evs) => (.error e, st', evs)
    | (.ok m, st', evs) =>
      match prepare_batch env subject template_name context rs st' with
      | (.error e, st'', evs') => (.error e, st'', evs ++ evs')
      | (.ok ms, st'', evs') => (.ok (m :: ms), st'', evs ++ evs')

/-- Process the chunks of `send_batch_emails` in order: build the chunk's
messages (uncaught on failure), then `with self.connection: send_messages`
inside a `try:` whose handler logs and records every recipient of the
chunk as failed. -/
def send_batch_go (env : Env) (subject template_name : String) (context : Ctx)
    (chs : List (List String)) (st : ServiceState) :
    Except EmailError (Nat × Nat × List Record) × ServiceState × List Event :=
  match chs with
  | [] => (.ok (0, 0, []), st, [])
  | b :: bs =>
    match prepare_batch env subject template_name context b st with
    | (.error e, st', evs) => (.error e, st', evs)
    | (.ok _msgs, st', evs) =>
      match connection env st' with
      | (.error _e, st2, evs2) =>
        -- `self.connection` raising inside the `try:` is caught: the whole
        -- chunk is recorded as failed.
        match send_batch_go env subject template_name context bs st2 with
        | (.error e', st3, evs3) =>
          (.error e', st3, evs ++ evs2 ++ [.logErr .connectionError] ++ evs3)
        | (.ok (sc, fc, fr), st3, evs3) =>
          (.ok (sc, b.length + fc,
              b.map (fun r => failureRecord r "ConnectionError") ++ fr),
            st3, evs ++ evs2 ++ [.logErr .connectionError] ++ evs3)
      | (.ok _c, st2, evs2) =>
        if env.sendMessagesOk b then
          match send_batch_go env subject template_name context bs st2 with
          | (.error e', st3, evs3) =>
            (.error e', st3, evs ++ evs2 ++ [.sendMessages b] ++ evs3)
          | (.ok (sc, fc, fr), st3, evs3) =>
            (.ok (b.length + sc, fc, fr), st3,
              evs ++ evs2 ++ [.sendMessages b] ++ evs3)
        else
          match send_batch_go env subject template_name context bs st2 with
          | (.error e', st3, evs3) =>
            (.error e', st3,
              evs ++ evs2 ++ [.sendMessages b, .logErr .transportError] ++ evs3)
          | (.ok (sc, fc, fr), st3, evs3) =>
            (.ok (sc, b.length + fc,
                b.map (fun r => failureRecord r "TransportError") ++ fr),
              st3,
              evs ++ evs2 ++ [.sendMessages b, .logErr .transportError] ++ evs3)

/-- `send_batch_emails`: chunk the recipient list by `BATCH_SIZE` and
process the chunks sequentially. -/
def send_batch_emails (env : Env) (template_name : String) (context : Ctx)
    (recipient_list : List String) (subject : String) (st : ServiceState) :
    Except EmailError BatchResult × ServiceState × List Event :=
  match send_batch_go env subject template_name context
      (chunkList env.BATCH_SIZE recipient_list) st with
  | (.error e, st', evs) => (.error e, st', evs)
  | (.ok (sc, fc, fr), st', evs) => (.ok ⟨sc, fc, fr⟩, st', evs)

/-- One retry attempt for one failed record: evaluate the four keyword
arguments (each `failed[...]` may raise `KeyError`, in source order
`subject`, `template_name`, `context`, `recipient`), rebuild the message,
and send synchronously; the surrounding `try/except` turns any failure
into a logged retry failure, success removes the record. -/
def retry_attempt (env : Env) (failed : Record) (st : ServiceState) :
    Bool × ServiceState × List Event :=
  match recGet failed "subject" with
  | .error e => (false, st, [.logErr e])
  | .ok subv =>
    match recGet failed "template_name" with
    | .error e => (false, st, [.logErr e])
    | .ok tplv =>
      match recGet failed "context" with
      | .error e => (false, st, [.logErr e])
      | .ok ctxv =>
        match recGet failed "recipient" with
        | .error e => (false, st, [.logErr e])
        | .ok recv =>
          match prepare_email_message env (recValStr subv) (recValStr tplv)
              (recValCtx ctxv) (.list [recValStr recv]) "medium" none st with
          | (.error e, st', evs) => (false, st', evs ++ [.logErr e])
          | (.ok m, st', evs) =>
            if env.sendOk m.toRecipients then
              (true, st', evs ++ [.sendOne m.toRecipients, .logInfo])
            else
              (false, st', evs ++ [.sendOne m.toRecipients, .logErr .transportError])

/-- One round of `retry_failed_emails`: iterate over a copy of the pending
list, attempting each record once; records whose attempt succeeded are
removed, the rest stay in order. -/
def retry_round (env : Env) (pending : List Record) (st : ServiceState) :
    List Record × ServiceState × List Event :=
  match pending with
  | [] => ([], st, [])
  | r :: rs =>
    let (ok, st', evs) := retry_attempt env r st
    let (rest, st'', evs') := retry_round env rs st'
    (if ok then rest else r :: rest, st'', evs ++ evs')

/-- The round loop of `retry_failed_emails`: after each round,
`time.sleep(delay)` fires whenever records remain pending — including
after the final round. -/
def retry_loop (env : Env) (pending : List Record) (delay : Nat)
    (st : ServiceState) : Nat → List Record × ServiceState × List Event
  | 0 => (pending, st, [])
  | n + 1 =>
    let (p', st', evs) := retry_round env pending st
    let sleepEvs : List Event := if p'.isEmpty then [] else [.sleep delay]
    let (pf, stf, evsf) := retry_loop env p' delay st' n
    (pf, stf, evs ++ sleepEvs ++ evsf)

/-- `retry_failed_emails(failed_recipients, retries=3, delay=5)`: runs
`retries` rounds over the (mutated) list; the returned list models the
caller-visible mutated collection. -/
def retry_failed_emails (env : Env) (failed_recipients : List Record)
    (retries : Nat) (delay : Nat) (st : ServiceState) :
    List Record × ServiceState × List Event :=
  retry_loop env failed_recipients delay st retries

/-- Number of `time.sleep` events in a trace. -/
def countSleeps (evs : List Event) : Nat :=
  evs.countP (fun e => match e with | .sleep _ => true | _ => false)

/-! ### Parallel send

`parallel_email_send` filters the recipients through the validator,
submits one `send_email` task per valid recipient to a bounded worker
pool, and folds the completed futures.  The concurrent execution is
abstracted: each submitted task's completion is an oracle outcome (its
boolean result, or an exception escaping `future.result()`), and the
completion order of `as_completed` is an arbitrary permutation of the
submitted tasks. -/

/-- Completion of one future: `future.result()` returns a boolean or
raises. -/
inductive TaskOutcome where
  | ok (b : Bool)
  | exn
deriving DecidableEq

/-- The aggregate dictionary returned by `parallel_email_send`. -/
structure ParallelResult where
  total_recipients : Nat
  valid_recipients : Nat
  successful_sends : Nat
  failed_sends : Nat
  failed_recipients : List String
deriving DecidableEq

/-- The tasks submitted to the pool: exactly the recipients accepted by
`validate_email`, in input order. -/
def submitted_tasks (recipient_list : List String) : List String :=
  recipient_list.filter validate_email

/-- Folding one completed future into the aggregate. -/
def parallel_step (outcome : String → TaskOutcome) (res : ParallelResult)
    (recipient : String) : ParallelResult :=
  match outcome recipient with
  | .ok true => { res with successful_sends := res.successful_sends + 1 }
  | .ok false =>
    { res with failed_sends := res.failed_sends + 1,
               failed_recipients := res.failed_recipients ++ [recipient] }
  | .exn =>
    { res with failed_sends := res.failed_sends + 1,
               failed_recipients := res.failed_recipients ++ [recipient] }

/-- `parallel_email_send`, over a completion order `order` of the
submitted futures. -/
def parallel_email_send (outcome : String → TaskOutcome)
    (recipient_list : List String) (order : List String) : ParallelResult :=
  order.foldl (parallel_step outcome)
    { total_recipients := recipient_list.length,
      valid_recipients := (submitted_tasks recipient_list).length,
      successful_sends := 0,
      failed_sends := 0,
      failed_recipients := [] }

/-! ## Helper lemmas about the success paths -/

/-- State after touching the connection property once (success case). -/
def ensureConn (st : ServiceState) : ServiceState :=
  match st.cachedConnection with
  | some _ => st
  | none => ⟨some st.establishCount, st.establishCount + 1⟩

/-- Handle returned by a successful access to the connection property. -/
def connHandle (st : ServiceState) : Nat :=
  match st.cachedConnection with
  | some c => c
  | none => st.establishCount

/-- Events of a successful access to the connection property. -/
def connEvs (st : ServiceState) : List Event :=
  match st.cachedConnection with
  | some _ => []
  | none => [.establishConnection]

lemma connection_ok {env : Env} (h : env.connectOk = true) (st : ServiceState) :
    connection env st = (.ok (connHandle st), ensureConn st, connEvs st) := by
  obtain ⟨sc, n⟩ := st
  unfold connection connHandle ensureConn connEvs
  cases sc <;> simp [h]

lemma ensureConn_cached (st : ServiceState) :
    (ensureConn st).cachedConnection = some (connHandle st) := by
  obtain ⟨sc, n⟩ := st
  unfold ensureConn connHandle
  cases sc <;> simp

lemma ensureConn_idem (st : ServiceState) : ensureConn (ensureConn st) = ensureConn st := by
  obtain ⟨sc, n⟩ := st
  unfold ensureConn
  cases sc <;> simp

lemma connEvs_ensureConn (st : ServiceState) : connEvs (ensureConn st) = [] := by
  obtain ⟨sc, n⟩ := st
  unfold connEvs ensureConn
  cases sc <;> simp

lemma connHandle_ensureConn (st : ServiceState) :
    connHandle (ensureConn st) = connHandle st := by
  obtain ⟨sc, n⟩ := st
  unfold connHandle ensureConn
  cases sc <;> simp

/-- The message built by a successful `prepare_email_message`. -/
def builtMsg (env : Env) (subject : String) (html : String)
    (ra : RecipientArg) (priority : String) (st : ServiceState) : Msg :=
  { subject := subject, body := env.strip_tags html,
    from_email := env.from_email, toRecipients := normalizeRecipients ra,
    connection := connHandle st, alternatives := [(html, "text/html")],
    attachments := [],
    extra_headers := if priority == "high" then [("X-Priority", "1")] else [] }

lemma prepare_ok {env : Env} (subject template_name : String) (context : Ctx)
    (ra : RecipientArg) (priority : String) (st : ServiceState)
    (hc : env.connectOk = true) {html : String}
    (hr : env.render (templatePath template_name)
        (pyUpdate context env.platformCtx) = some html) :
    prepare_email_message env subject template_name context ra priority none st =
      (.ok (builtMsg env subject html ra priority st),
       ensureConn st,
       .renderTemplate (templatePath template_name) ::
         (connEvs st ++ [.buildMessage (normalizeRecipients ra)])) := by
  unfold prepare_email_message builtMsg
  simp only [hr, connection_ok hc, Option.getD_none, attachAll, List.cons_append]

lemma prepare_conn_fail {env : Env} (subject template_name : String)
    (context : Ctx) (ra : RecipientArg) (priority : String)
    (attachments : Option (List String)) (st : ServiceState)
    (hc : env.connectOk = false) (hfresh : st.cachedConnection = none)
    {html : String}
    (hr : env.render (templatePath template_name)
        (pyUpdate context env.platformCtx) = some html) :
    prepare_email_message env subject template_name context ra priority
        attachments st =
      (.error .connectionError, st,
       [.renderTemplate (templatePath template_name), .logErr .connectionError]) := by
  unfold prepare_email_message connection
  simp only [hr, hfresh, hc]
  simp

/-- Events that belong to message construction (template render or
message object construction). -/
def isBuildEvent : Event → Bool
  | .renderTemplate _ => true
  | .buildMessage _ => true
  | _ => false

/-- Events that touch the transport (connection establishment, thread
hand-off, or an actual send). -/
def isTransportEvent : Event → Bool
  | .establishConnection => true
  | .startThread _ => true
  | .sendMessages _ => true
  | .sendOne _ => true
  | _ => false

/-- Number of `EmailThread(...).start()` events in a trace. -/
def countStartThread (evs : List Event) : Nat :=
  evs.countP (fun e => match e with | .startThread _ => true | _ => false)

/-- Number of synchronous `msg.send()` events in a trace. -/
def countSendOne (evs : List Event) : Nat :=
  evs.countP (fun e => match e with | .sendOne _ => true | _ => false)

/-- A concrete environment whose collaborators all succeed, used to
instantiate hypotheses at concrete inputs. -/
def baseEnv : Env :=
  { MAX_RECIPIENTS := 5, BATCH_SIZE := 2, THREAD_POOL_SIZE := 4,
    threadingEnabled := false, connectOk := true,
    render := fun _ _ => some "<p>Hello</p>",
    strip_tags := fun s => s,
    from_email := "noreply@waanverse.com",
    platformCtx := [("site_name", "Waanverse")],
    attachOk := fun _ => true,
    sendOk := fun _ => true,
    sendMessagesOk := fun _ => true }

/-- Claim C2: with more recipients than `MAX_RECIPIENTS`, `send_email`
returns `False` to its caller (the raised `ValueError` is caught by the
catch-all handler, not propagated), the only observable effect is one
validation-failure log entry, and in particular no template render, no
message construction, and no transport activity happens before
returning. -/
theorem C2_send_email_max_recipients (env : Env)
    (subject template_name : String) (context : Ctx)
    (recipient_list : List String) (priority : String)
    (attachments : Option (List String)) (asyncSend : Bool)
    (st : ServiceState)
    (h : recipient_list.length > env.MAX_RECIPIENTS) :
    send_email env subject template_name context (.list recipient_list)
        priority attachments asyncSend st =
      (false, st,
        [.logErr (.valueError
          ("Too many recipients (max " ++ toString env.MAX_RECIPIENTS ++ ")"))]) ∧
    ((send_email env subject template_name context (.list recipient_list)
        priority attachments asyncSend st).2.2.all
      (fun e => !(isBuildEvent e || isTransportEvent e))) = true := by
  have htry : send_email_try env subject template_name context
      (.list recipient_list) priority attachments asyncSend st =
      (.error (.valueError
          ("Too many recipients (max " ++ toString env.MAX_RECIPIENTS ++ ")")),
        st, ([] : List Event)) := by
    unfold send_email_try normalizeRecipients
    simp [h]
  have hmain : send_email env subject template_name context
      (.list recipient_list) priority attachments asyncSend st =
      (false, st,
        [.logErr (.valueError
          ("Too many recipients (max " ++ toString env.MAX_RECIPIENTS ++ ")"))]) := by
    unfold send_email
    rw [htry]
    rfl
  exact ⟨hmain, by rw [hmain]; rfl⟩

/-- Witness for C2 at a concrete input: six recipients against
`MAX_RECIPIENTS = 5`. -/
theorem C2_send_email_max_recipients_witness :
    send_email baseEnv "S" "tpl" []
        (.list ["a@b.co", "b@b.co", "c@b.co", "d@b.co", "e@b.co", "f@b.co"])
        "medium" none true initialState =
      (false, initialState,
        [.logErr (.valueError "Too many recipients (max 5)")]) :=
  (C2_send_email_max_recipients baseEnv "S" "tpl" []
      ["a@b.co", "b@b.co", "c@b.co", "d@b.co", "e@b.co", "f@b.co"]
      "medium" none true initialState (by decide)).1

/-- Claim C6: the connection property is idempotent.  From a fresh state
the first access establishes one connection (one `establishConnection`
event) and caches its handle; the immediately following access returns
the very same handle with no further establishment and no state change;
and in general any access on a state with a cached handle returns that
handle unchanged. -/
theorem C6_connection_idempotent (env : Env) (st : ServiceState)
    (hok : env.connectOk = true) (hfresh : st.cachedConnection = none) :
    connection env st =
      (.ok st.establishCount,
        ⟨some st.establishCount, st.establishCount + 1⟩,
        [.establishConnection]) ∧
    connection env ⟨some st.establishCount, st.establishCount + 1⟩ =
      (.ok st.establishCount,
        ⟨some st.establishCount, st.establishCount + 1⟩, []) ∧
    (∀ (st' : ServiceState) (c : Nat), st'.cachedConnection = some c →
      connection env st' = (.ok c, st', [])) := by
  refine ⟨?_, ?_, ?_⟩
  · unfold connection
    rw [hfresh]
    simp [hok]
  · unfold connection
    simp
  · intro st' c hc
    unfold connection
    rw [hc]

/-- Witness for C6: both accesses from the initial state of a fresh
service yield handle `0`, with a single establishment. -/
theorem C6_connection_idempotent_witness :
    connection baseEnv initialState =
      (.ok 0, ⟨some 0, 1⟩, [.establishConnection]) ∧
    connection baseEnv ⟨some 0, 1⟩ = (.ok 0, ⟨some 0, 1⟩, []) :=
  ⟨(C6_connection_idempotent baseEnv initialState rfl rfl).1,
   (C6_connection_idempotent baseEnv initialState rfl rfl).2.1⟩

/-- Counterexample to claim C7 as stated.  With a failing transport
connection (`connectOk = false`), a fresh state, and a resolvable
template, the `ConnectionError` does reach the boundary of `send_email`'s
`try:` block — but `send_email` returns the boolean `false` to its caller
instead of re-raising: the catch-all `except Exception` converts it. -/
theorem C7_counterexample :
    (send_email_try { baseEnv with connectOk := false } "S" "tpl" []
        (.str "a@b.co") "medium" none false initialState).1 =
      .error .connectionError ∧
    send_email { baseEnv with connectOk := false } "S" "tpl" []
        (.str "a@b.co") "medium" none false initialState =
      (false, initialState,
        [.renderTemplate "emails/tpl.html", .logErr .connectionError,
         .logErr .connectionError]) := by
  constructor
  · rfl
  · rfl

/-- Claim C7 as amended: when connection establishment fails during a
single send (fresh state, resolvable template, recipient count within
bounds), the `ConnectionError` is logged and re-raised by the `connection`
property into `send_email`'s `try:` block, where the catch-all handler
logs it again and converts it into a `false` return — `send_email` itself
raises nothing to its caller. -/
theorem C7_connection_error_caught (env : Env)
    (subject template_name : String) (context : Ctx)
    (recipient_arg : RecipientArg) (priority : String) (asyncSend : Bool)
    (st : ServiceState)
    (hconn : env.connectOk = false) (hfresh : st.cachedConnection = none)
    (hmax : (normalizeRecipients recipient_arg).length ≤ env.MAX_RECIPIENTS)
    {html : String}
    (hr : env.render (templatePath template_name)
        (pyUpdate context env.platformCtx) = some html) :
    (send_email_try env subject template_name context recipient_arg priority
        none asyncSend st).1 = .error .connectionError ∧
    send_email env subject template_name context recipient_arg priority
        none asyncSend st =
      (false, st,
        [.renderTemplate (templatePath template_name),
         .logErr .connectionError, .logErr .connectionError]) := by
  have htry : send_email_try env subject template_name context recipient_arg
      priority none asyncSend st =
      (.error .connectionError, st,
        [.renderTemplate (templatePath template_name),
         .logErr .connectionError]) := by
    unfold send_email_try
    rw [if_neg (by omega)]
    rw [prepare_conn_fail subject template_name context
      (.list (normalizeRecipients recipient_arg)) priority none st hconn
      hfresh hr]
  constructor
  · rw [htry]
  · unfold send_email
    rw [htry]
    rfl

/-- Witness for the amended C7 at a concrete input. -/
theorem C7_connection_error_caught_witness :
    (send_email_try { baseEnv with connectOk := false } "Subj" "t2" []
        (.str "u@x.co") "medium" none true initialState).1 =
      .error .connectionError ∧
    send_email { baseEnv with connectOk := false } "Subj" "t2" []
        (.str "u@x.co") "medium" none true initialState =
      (false, initialState,
        [.renderTemplate (templatePath "t2"),
         .logErr .connectionError, .logErr .connectionError]) :=
  C7_connection_error_caught { baseEnv with connectOk := false } "Subj" "t2"
    [] (.str "u@x.co") "medium" true initialState rfl rfl (by decide) rfl

/-- Claim C8: `send_transactional_email` with an event type outside the
static table `{welcome, password_reset, account_verification}` returns
`false` having produced exactly one log entry and nothing else (no
`send_email` invocation, hence no build or transport event); a mapped
event type delegates to `send_email` with the corresponding fixed
template name. -/
theorem C8_transactional_dispatch (env : Env) (recipient event_type : String)
    (context : Ctx) (st : ServiceState) :
    (event_type ∉ ["welcome", "password_reset", "account_verification"] →
      send_transactional_email env recipient event_type context st =
        (false, st, [.logErr (.unknownEventType event_type)])) ∧
    (∀ template, transactional_templates.lookup event_type = some template →
      send_transactional_email env recipient event_type context st =
        send_email env (transactional_subject event_type) template context
          (.str recipient) "medium" none async_send_default st) := by
  constructor
  · intro hmem
    have h1 : event_type ≠ "welcome" := fun h => hmem (by rw [h]; simp)
    have h2 : event_type ≠ "password_reset" := fun h => hmem (by rw [h]; simp)
    have h3 : event_type ≠ "account_verification" := fun h => hmem (by rw [h]; simp)
    have b1 : (event_type == "welcome") = false := beq_eq_false_iff_ne.mpr h1
    have b2 : (event_type == "password_reset") = false := beq_eq_false_iff_ne.mpr h2
    have b3 : (event_type == "account_verification") = false :=
      beq_eq_false_iff_ne.mpr h3
    have hl : transactional_templates.lookup event_type = none := by
      simp [transactional_templates, List.lookup, b1, b2, b3]
    unfold send_transactional_email
    rw [hl]
  · intro template hl
    unfold send_transactional_email
    rw [hl]

/-- Witness for C8: the unknown event `"unknown_event"` fails with one
log entry and no send; the mapped event `"welcome"` delegates to
`send_email` with template `"welcome_email"`. -/
theorem C8_transactional_dispatch_witness :
    send_transactional_email baseEnv "u@x.co" "unknown_event" [] initialState =
      (false, initialState, [.logErr (.unknownEventType "unknown_event")]) ∧
    send_transactional_email baseEnv "u@x.co" "welcome" [] initialState =
      send_email baseEnv (transactional_subject "welcome") "welcome_email" []
        (.str "u@x.co") "medium" none async_send_default initialState :=
  ⟨(C8_transactional_dispatch baseEnv "u@x.co" "unknown_event" []
      initialState).1 (by decide),
   (C8_transactional_dispatch baseEnv "u@x.co" "welcome" []
      initialState).2 "welcome_email" rfl⟩

/-- Counterexample to claim C9 as stated.  The default of `send_email`'s
`async_send` parameter is `True`, not false, and a transactional dispatch
in an environment with threading enabled takes the asynchronous
fire-and-forget path: the trace contains one detached-thread hand-off and
no synchronous `msg.send()`, and the call reports success without any
delivery confirmation. -/
theorem C9_counterexample :
    async_send_default = true ∧
    (send_transactional_email { baseEnv with threadingEnabled := true }
        "u@x.co" "welcome" [] initialState).1 = true ∧
    countStartThread (send_transactional_email
        { baseEnv with threadingEnabled := true }
        "u@x.co" "welcome" [] initialState).2.2 = 1 ∧
    countSendOne (send_transactional_email
        { baseEnv with threadingEnabled := true }
        "u@x.co" "welcome" [] initialState).2.2 = 0 :=
  ⟨rfl, rfl, rfl, rfl⟩

lemma countP_connEvs (f : Event → Bool) (hf : f .establishConnection = false)
    (st : ServiceState) : (connEvs st).countP f = 0 := by
  obtain ⟨sc, n⟩ := st
  unfold connEvs
  cases sc <;> simp [List.countP_cons, hf]

/-- Claim C9 as amended: a mapped transactional dispatch delegates to
`send_email` with `async_send` left at its default — and that default is
`True` (`async_send: bool = True`), not false.  Consequently, with
threading enabled (and a resolvable template, working connection, and
recipient limit of at least one) the transactional send is asynchronous:
`send_transactional_email` reports success after handing the message to a
detached thread, with no synchronous `msg.send()` in its trace. -/
theorem C9_transactional_async_default (env : Env)
    (recipient event_type : String) (context : Ctx) (st : ServiceState)
    (template : String)
    (hl : transactional_templates.lookup event_type = some template)
    (hthr : env.threadingEnabled = true) (hc : env.connectOk = true)
    (hmax : 1 ≤ env.MAX_RECIPIENTS) {html : String}
    (hr : env.render (templatePath template)
        (pyUpdate context env.platformCtx) = some html) :
    async_send_default = true ∧
    send_transactional_email env recipient event_type context st =
      send_email env (transactional_subject event_type) template context
        (.str recipient) "medium" none true st ∧
    (send_transactional_email env recipient event_type context st).1 = true ∧
    countStartThread
      (send_transactional_email env recipient event_type context st).2.2 = 1 ∧
    countSendOne
      (send_transactional_email env recipient event_type context st).2.2 = 0 := by
  have hdeleg : send_transactional_email env recipient event_type context st =
      send_email env (transactional_subject event_type) template context
        (.str recipient) "medium" none true st := by
    unfold send_transactional_email
    rw [hl]
    rfl
  have hrun : send_email env (transactional_subject event_type) template
      context (.str recipient) "medium" none true st =
      (true, ensureConn st,
        .renderTemplate (templatePath template) ::
          (connEvs st ++ [.buildMessage [recipient]]) ++
          [.startThread [recipient], .logInfo]) := by
    unfold send_email send_email_try
    simp only [normalizeRecipients]
    rw [if_neg (by simp only [List.length_singleton]; omega)]
    rw [prepare_ok (transactional_subject event_type) template context
      (.list [recipient]) "medium" st hc hr]
    simp [hthr, builtMsg, normalizeRecipients]
  refine ⟨rfl, hdeleg, ?_, ?_, ?_⟩
  · rw [hdeleg, hrun]
  · rw [hdeleg, hrun]
    simp only [countStartThread, List.countP_cons, List.countP_append]
    rw [countP_connEvs _ rfl st]
    simp
  · rw [hdeleg, hrun]
    simp only [countSendOne, List.countP_cons, List.countP_append]
    rw [countP_connEvs _ rfl st]
    simp

/-- Witness for the amended C9 at a concrete input. -/
theorem C9_transactional_async_default_witness :
    async_send_default = true ∧
    send_transactional_email { baseEnv with threadingEnabled := true }
        "u@x.co" "password_reset" [] initialState =
      send_email { baseEnv with threadingEnabled := true }
        (transactional_subject "password_reset") "password_reset" []
        (.str "u@x.co") "medium" none true initialState ∧
    (send_transactional_email { baseEnv with threadingEnabled := true }
        "u@x.co" "password_reset" [] initialState).1 = true ∧
    countStartThread (send_transactional_email
        { baseEnv with threadingEnabled := true }
        "u@x.co" "password_reset" [] initialState).2.2 = 1 ∧
    countSendOne (send_transactional_email
        { baseEnv with threadingEnabled := true }
        "u@x.co" "password_reset" [] initialState).2.2 = 0 :=
  C9_transactional_async_default { baseEnv with threadingEnabled := true }
    "u@x.co" "password_reset" [] initialState "password_reset" rfl rfl rfl
    (by decide) rfl

lemma parallel_foldl_counts (outcome : String → TaskOutcome)
    (L : List String) (res : ParallelResult) :
    (L.foldl (parallel_step outcome) res).total_recipients =
        res.total_recipients ∧
    (L.foldl (parallel_step outcome) res).valid_recipients =
        res.valid_recipients ∧
    (L.foldl (parallel_step outcome) res).successful_sends +
        (L.foldl (parallel_step outcome) res).failed_sends =
      res.successful_sends + res.failed_sends + L.length := by
  induction L generalizing res with
  | nil => simp
  | cons r L ih =>
    simp only [List.foldl_cons, List.length_cons]
    obtain ⟨h1, h2, h3⟩ := ih (parallel_step outcome res r)
    refine ⟨?_, ?_, ?_⟩
    · rw [h1]
      unfold parallel_step
      cases outcome r with
      | ok b => cases b <;> rfl
      | exn => rfl
    · rw [h2]
      unfold parallel_step
      cases outcome r with
      | ok b => cases b <;> rfl
      | exn => rfl
    · rw [h3]
      unfold parallel_step
      cases outcome r with
      | ok b => cases b <;> simp <;> omega
      | exn => simp; omega

/-- Claim C3: for any completion order of the submitted futures,
`parallel_email_send` reports `total_recipients` equal to the input
length, `valid_recipients` equal to the number of inputs accepted by
`validate_email`, `successful_sends + failed_sends = valid_recipients`,
and an address rejected by the validator is never among the submitted
tasks (hence never attempted). -/
theorem C3_parallel_send_aggregate (outcome : String → TaskOutcome)
    (recipient_list order : List String)
    (hperm : order.Perm (submitted_tasks recipient_list)) :
    (parallel_email_send outcome recipient_list order).total_recipients =
        recipient_list.length ∧
    (parallel_email_send outcome recipient_list order).valid_recipients =
        recipient_list.countP validate_email ∧
    (parallel_email_send outcome recipient_list order).successful_sends +
        (parallel_email_send outcome recipient_list order).failed_sends =
      (parallel_email_send outcome recipient_list order).valid_recipients ∧
    (∀ r ∈ recipient_list, validate_email r = false →
      r ∉ submitted_tasks recipient_list ∧ r ∉ order) := by
  obtain ⟨h1, h2, h3⟩ := parallel_foldl_counts outcome order
    { total_recipients := recipient_list.length,
      valid_recipients := (submitted_tasks recipient_list).length,
      successful_sends := 0, failed_sends := 0, failed_recipients := [] }
  refine ⟨h1, ?_, ?_, ?_⟩
  · unfold parallel_email_send
    rw [h2]
    simp [submitted_tasks, List.countP_eq_length_filter]
  · unfold parallel_email_send
    rw [h2, h3, hperm.length_eq]
    simp
  · intro r hr hv
    have hns : r ∉ submitted_tasks recipient_list := by
      unfold submitted_tasks
      intro hmem
      have := (List.mem_filter.mp hmem).2
      rw [hv] at this
      exact Bool.noConfusion this
    exact ⟨hns, fun ho => hns (hperm.mem_iff.mp ho)⟩

/-- Witness for C3: the spec's Scenario A recipients with an
always-succeeding task outcome and completion in submission order. -/
theorem C3_parallel_send_aggregate_witness :
    (parallel_email_send (fun _ => .ok true)
        ["user1@example.com", "user2@example.com", "invalid-email"]
        (submitted_tasks
          ["user1@example.com", "user2@example.com", "invalid-email"])).total_recipients = 3 ∧
    (parallel_email_send (fun _ => .ok true)
        ["user1@example.com", "user2@example.com", "invalid-email"]
        (submitted_tasks
          ["user1@example.com", "user2@example.com", "invalid-email"])).valid_recipients = 2 ∧
    (parallel_email_send (fun _ => .ok true)
        ["user1@example.com", "user2@example.com", "invalid-email"]
        (submitted_tasks
          ["user1@example.com", "user2@example.com", "invalid-email"])).successful_sends +
      (parallel_email_send (fun _ => .ok true)
        ["user1@example.com", "user2@example.com", "invalid-email"]
        (submitted_tasks
          ["user1@example.com", "user2@example.com", "invalid-email"])).failed_sends = 2 := by
  obtain ⟨h1, h2, h3, -⟩ := C3_parallel_send_aggregate (fun _ => .ok true)
    ["user1@example.com", "user2@example.com", "invalid-email"]
    (submitted_tasks ["user1@example.com", "user2@example.com", "invalid-email"])
    (List.Perm.refl _)
  refine ⟨h1, ?_, ?_⟩
  · rw [h2]
    decide
  · rw [h3, h2]
    decide

/-- The chunks whose transport send succeeded contribute their sizes to
`success_count`. -/
def sumOk (env : Env) (chs : List (List String)) : Nat :=
  ((chs.filter env.sendMessagesOk).map List.length).sum

/-- The chunks whose transport send raised contribute their sizes to
`failure_count`. -/
def sumFail (env : Env) (chs : List (List String)) : Nat :=
  ((chs.filter (fun b => !env.sendMessagesOk b)).map List.length).sum

/-- The failure records accumulated by `send_batch_emails`: one record per
recipient of each failing chunk, in order. -/
def failRecs (env : Env) (chs : List (List String)) : List Record :=
  ((chs.filter (fun b => !env.sendMessagesOk b)).flatten).map
    (fun r => failureRecord r "TransportError")

/-- The chunk payloads of the `connection.send_messages` events of a
trace, in order. -/
def sentChunks (evs : List Event) : List (List String) :=
  evs.filterMap (fun e => match e with | .sendMessages b => some b | _ => none)

lemma sentChunks_append (evs evs' : List Event) :
    sentChunks (evs ++ evs') = sentChunks evs ++ sentChunks evs' := by
  unfold sentChunks
  rw [List.filterMap_append]

lemma sentChunks_connEvs (st : ServiceState) : sentChunks (connEvs st) = [] := by
  obtain ⟨sc, n⟩ := st
  unfold connEvs
  cases sc <;> rfl

lemma chunkGo_flatten {bs : Nat} (hbs : 0 < bs) :
    ∀ (fuel : Nat) (l : List String), l.length ≤ fuel →
      (chunkGo bs fuel l).flatten = l := by
  intro fuel
  induction fuel with
  | zero =>
    intro l hl
    have : l = [] := List.eq_nil_of_length_eq_zero (Nat.le_zero.mp hl)
    subst this
    simp [chunkGo]
  | succ n ih =>
    intro l hl
    cases l with
    | nil => simp [chunkGo]
    | cons x xs =>
      rw [chunkGo, List.flatten_cons]
      rw [ih (xs.drop (bs - 1)) (by
        simp only [List.length_drop]
        simp only [List.length_cons] at hl
        omega)]
      cases bs with
      | zero => omega
      | succ b =>
        simp only [List.take_succ_cons, Nat.succ_sub_one, List.cons_append,
          List.cons.injEq, true_and]
        exact List.take_append_drop b xs

lemma chunkList_flatten {bs : Nat} (hbs : 0 < bs) (l : List String) :
    (chunkList bs l).flatten = l :=
  chunkGo_flatten hbs l.length l le_rfl

lemma chunkGo_shape {bs : Nat} (hbs : 0 < bs) :
    ∀ (fuel : Nat) (l : List String), l.length ≤ fuel →
      ∀ c ∈ chunkGo bs fuel l, c ≠ [] ∧ c.length ≤ bs := by
  intro fuel
  induction fuel with
  | zero =>
    intro l hl
    have : l = [] := List.eq_nil_of_length_eq_zero (Nat.le_zero.mp hl)
    subst this
    simp [chunkGo]
  | succ n ih =>
    intro l hl c hc
    cases l with
    | nil => simp [chunkGo] at hc
    | cons x xs =>
      rw [chunkGo] at hc
      rcases List.mem_cons.mp hc with rfl | hmem
      · constructor
        · cases bs with
          | zero => omega
          | succ b => simp [List.take_succ_cons]
        · rw [List.length_take]
          omega
      · exact ih (xs.drop (bs - 1)) (by
          simp only [List.length_drop]
          simp only [List.length_cons] at hl
          omega) c hmem

lemma chunkList_shape {bs : Nat} (hbs : 0 < bs) (l : List String) :
    ∀ c ∈ chunkList bs l, c ≠ [] ∧ c.length ≤ bs :=
  chunkGo_shape hbs l.length l le_rfl

lemma sentChunks_prepare (p : String) (st : ServiceState) (rl : List String) :
    sentChunks (.renderTemplate p :: (connEvs st ++ [.buildMessage rl])) = [] := by
  obtain ⟨sc, n⟩ := st
  unfold sentChunks connEvs
  cases sc <;> rfl

lemma prepare_batch_ok {env : Env} (subject tpl : String) (ctx : Ctx)
    (hc : env.connectOk = true) {html : String}
    (hr : env.render (templatePath tpl) (pyUpdate ctx env.platformCtx) =
      some html) :
    ∀ (batch : List String) (st : ServiceState), ∃ msgs st' evs,
      prepare_batch env subject tpl ctx batch st = (.ok msgs, st', evs) ∧
      sentChunks evs = [] := by
  intro batch
  induction batch with
  | nil => intro st; exact ⟨[], st, [], rfl, rfl⟩
  | cons r rs ih =>
    intro st
    obtain ⟨msgs, st2, evs2, hpb, hsc⟩ := ih (ensureConn st)
    refine ⟨builtMsg env subject html (.list [r]) "medium" st :: msgs, st2,
      (.renderTemplate (templatePath tpl) ::
        (connEvs st ++ [.buildMessage [r]])) ++ evs2, ?_, ?_⟩
    · unfold prepare_batch
      simp only [prepare_ok subject tpl ctx (.list [r]) "medium" st hc hr, hpb,
        normalizeRecipients]
    · rw [sentChunks_append, sentChunks_prepare, hsc]
      rfl

lemma send_batch_go_ok {env : Env} (subject tpl : String) (ctx : Ctx)
    (hc : env.connectOk = true) {html : String}
    (hr : env.render (templatePath tpl) (pyUpdate ctx env.platformCtx) =
      some html) :
    ∀ (chs : List (List String)) (st : ServiceState), ∃ st' evs,
      send_batch_go env subject tpl ctx chs st =
        (.ok (sumOk env chs, sumFail env chs, failRecs env chs), st', evs) ∧
      sentChunks evs = chs := by
  intro chs
  induction chs with
  | nil => intro st; exact ⟨st, [], rfl, rfl⟩
  | cons b bs ih =>
    intro st
    obtain ⟨msgs, st1, evs1, hpb, hs1⟩ := prepare_batch_ok subject tpl ctx hc hr b st
    obtain ⟨st2, evs2, hgo, hs2⟩ := ih (ensureConn st1)
    by_cases hok : env.sendMessagesOk b
    · refine ⟨st2, evs1 ++ connEvs st1 ++ [.sendMessages b] ++ evs2, ?_, ?_⟩
      · unfold send_batch_go
        simp only [hpb, connection_ok hc st1, hgo, hok, eq_self_iff_true, if_true]
        have h1 : sumOk env (b :: bs) = b.length + sumOk env bs := by
          simp [sumOk, List.filter_cons, hok]
        have h2 : sumFail env (b :: bs) = sumFail env bs := by
          simp [sumFail, List.filter_cons, hok]
        have h3 : failRecs env (b :: bs) = failRecs env bs := by
          simp [failRecs, List.filter_cons, hok]
        rw [h1, h2, h3]
      · rw [sentChunks_append, sentChunks_append, sentChunks_append, hs1,
          sentChunks_connEvs, hs2]
        rfl
    · have hok' : env.sendMessagesOk b = false := by
        rwa [Bool.not_eq_true] at hok
      refine ⟨st2,
        evs1 ++ connEvs st1 ++ [.sendMessages b, .logErr .transportError] ++ evs2,
        ?_, ?_⟩
      · unfold send_batch_go
        simp only [hpb, connection_ok hc st1, hgo, hok', Bool.false_eq_true,
          if_false]
        have h1 : sumOk env (b :: bs) = sumOk env bs := by
          simp [sumOk, List.filter_cons, hok']
        have h2 : sumFail env (b :: bs) = b.length + sumFail env bs := by
          simp [sumFail, List.filter_cons, hok']
        have h3 : failRecs env (b :: bs) =
            b.map (fun r => failureRecord r "TransportError") ++ failRecs env bs := by
          simp [failRecs, List.filter_cons, hok', List.flatten_cons]
        rw [h1, h2, h3]
      · rw [sentChunks_append, sentChunks_append, sentChunks_append, hs1,
          sentChunks_connEvs, hs2]
        rfl

lemma sumOk_add_sumFail (env : Env) (chs : List (List String)) :
    sumOk env chs + sumFail env chs = (chs.map List.length).sum := by
  induction chs with
  | nil => rfl
  | cons b bs ih =>
    by_cases hok : env.sendMessagesOk b
    · simp only [sumOk, sumFail, List.filter_cons, hok] at ih ⊢
      simp only [Bool.not_true, Bool.false_eq_true, if_false, if_true,
        List.map_cons, List.sum_cons]
      omega
    · have hok' : env.sendMessagesOk b = false := by
        rwa [Bool.not_eq_true] at hok
      simp only [sumOk, sumFail, List.filter_cons, hok'] at ih ⊢
      simp only [Bool.not_false, Bool.false_eq_true, if_false, if_true,
        List.map_cons, List.sum_cons]
      omega

/-- Claim C4: `send_batch_emails` partitions the recipient list into
consecutive chunks of `BATCH_SIZE` in input order (the chunks concatenate
back to the input, are nonempty, and are at most `BATCH_SIZE` long, and
the transport is invoked exactly once per chunk, in that order); whenever
a chunk's `send_messages` raises, exactly that chunk's recipients are
added to `failure_count` and `failed_recipients` while other chunks are
unaffected, and `success_count + failure_count` equals the input length.
Hypotheses: positive configured batch size, a working connection, and a
resolvable template (a failing build would abort the whole method before
any counting). -/
theorem C4_send_batch_chunking (env : Env) (template_name : String)
    (context : Ctx) (recipient_list : List String) (subject : String)
    (st : ServiceState) (hbs : 0 < env.BATCH_SIZE)
    (hc : env.connectOk = true) {html : String}
    (hr : env.render (templatePath template_name)
        (pyUpdate context env.platformCtx) = some html) :
    ∃ res st' evs,
      send_batch_emails env template_name context recipient_list subject st =
        (.ok res, st', evs) ∧
      sentChunks evs = chunkList env.BATCH_SIZE recipient_list ∧
      (chunkList env.BATCH_SIZE recipient_list).flatten = recipient_list ∧
      (∀ c ∈ chunkList env.BATCH_SIZE recipient_list,
        c ≠ [] ∧ c.length ≤ env.BATCH_SIZE) ∧
      res.success_count = sumOk env (chunkList env.BATCH_SIZE recipient_list) ∧
      res.failure_count = sumFail env (chunkList env.BATCH_SIZE recipient_list) ∧
      res.failed_recipients =
        failRecs env (chunkList env.BATCH_SIZE recipient_list) ∧
      res.success_count + res.failure_count = recipient_list.length := by
  obtain ⟨st', evs, hgo, hsc⟩ := send_batch_go_ok subject template_name context
    hc hr (chunkList env.BATCH_SIZE recipient_list) st
  refine ⟨⟨sumOk env (chunkList env.BATCH_SIZE recipient_list),
           sumFail env (chunkList env.BATCH_SIZE recipient_list),
           failRecs env (chunkList env.BATCH_SIZE recipient_list)⟩,
    st', evs, ?_, hsc, chunkList_flatten hbs recipient_list,
    chunkList_shape hbs recipient_list, rfl, rfl, rfl, ?_⟩
  · unfold send_batch_emails
    rw [hgo]
  · rw [sumOk_add_sumFail]
    calc ((chunkList env.BATCH_SIZE recipient_list).map List.length).sum
        = (chunkList env.BATCH_SIZE recipient_list).flatten.length := by
          rw [List.length_flatten]
      _ = recipient_list.length := by rw [chunkList_flatten hbs recipient_list]

/-- Witness for C4: the spec's Scenario D — `batch_size = 2`, five
recipients, a transport that fails exactly on the second chunk — giving
chunks of sizes `[2, 2, 1]`, three transport invocations in input order,
`success_count = 3`, `failure_count = 2`, and failure records for exactly
the second chunk's two recipients. -/
theorem C4_send_batch_chunking_witness :
    (∃ res st' evs,
      send_batch_emails
          { baseEnv with sendMessagesOk :=
              fun b => !(b.contains "user3@example.com") }
          "tpl" [] ["user1@example.com", "user2@example.com",
            "user3@example.com", "user4@example.com", "user5@example.com"]
          "S" initialState =
        (.ok res, st', evs) ∧
      sentChunks evs = chunkList 2 ["user1@example.com", "user2@example.com",
        "user3@example.com", "user4@example.com", "user5@example.com"] ∧
      (chunkList 2 ["user1@example.com", "user2@example.com",
        "user3@example.com", "user4@example.com",
        "user5@example.com"]).flatten = ["user1@example.com",
        "user2@example.com", "user3@example.com", "user4@example.com",
        "user5@example.com"] ∧
      (∀ c ∈ chunkList 2 ["user1@example.com", "user2@example.com",
          "user3@example.com", "user4@example.com", "user5@example.com"],
        c ≠ [] ∧ c.length ≤ 2) ∧
      res.success_count = sumOk
        { baseEnv with sendMessagesOk :=
            fun b => !(b.contains "user3@example.com") }
        (chunkList 2 ["user1@example.com", "user2@example.com",
          "user3@example.com", "user4@example.com", "user5@example.com"]) ∧
      res.failure_count = sumFail
        { baseEnv with sendMessagesOk :=
            fun b => !(b.contains "user3@example.com") }
        (chunkList 2 ["user1@example.com", "user2@example.com",
          "user3@example.com", "user4@example.com", "user5@example.com"]) ∧
      res.failed_recipients = failRecs
        { baseEnv with sendMessagesOk :=
            fun b => !(b.contains "user3@example.com") }
        (chunkList 2 ["user1@example.com", "user2@example.com",
          "user3@example.com", "user4@example.com", "user5@example.com"]) ∧
      res.success_count + res.failure_count = 5) ∧
    (chunkList 2 ["user1@example.com", "user2@example.com",
      "user3@example.com", "user4@example.com", "user5@example.com"]).map
        List.length = [2, 2, 1] ∧
    sumOk { baseEnv with sendMessagesOk :=
        fun b => !(b.contains "user3@example.com") }
      (chunkList 2 ["user1@example.com", "user2@example.com",
        "user3@example.com", "user4@example.com", "user5@example.com"]) = 3 ∧
    sumFail { baseEnv with sendMessagesOk :=
        fun b => !(b.contains "user3@example.com") }
      (chunkList 2 ["user1@example.com", "user2@example.com",
        "user3@example.com", "user4@example.com", "user5@example.com"]) = 2 ∧
    failRecs { baseEnv with sendMessagesOk :=
        fun b => !(b.contains "user3@example.com") }
      (chunkList 2 ["user1@example.com", "user2@example.com",
        "user3@example.com", "user4@example.com", "user5@example.com"]) =
      [failureRecord "user3@example.com" "TransportError",
       failureRecord "user4@example.com" "TransportError"] :=
  ⟨C4_send_batch_chunking
      { baseEnv with sendMessagesOk :=
          fun b => !(b.contains "user3@example.com") }
      "tpl" [] ["user1@example.com", "user2@example.com",
        "user3@example.com", "user4@example.com", "user5@example.com"]
      "S" initialState (by decide) rfl rfl,
    by decide, by decide, by decide, by decide⟩

lemma countSleeps_connection (env : Env) (st : ServiceState) :
    countSleeps (connection env st).2.2 = 0 := by
  obtain ⟨sc, n⟩ := st
  unfold connection
  cases sc with
  | none =>
    cases henv : env.connectOk <;> simp [henv, countSleeps, List.countP_cons]
  | some c => rfl

lemma prepare_no_sleep (env : Env) (s t : String) (c : Ctx)
    (ra : RecipientArg) (p : String) (a : Option (List String))
    (st : ServiceState) :
    countSleeps (prepare_email_message env s t c ra p a st).2.2 = 0 := by
  unfold prepare_email_message
  cases hrend : env.render (templatePath t) (pyUpdate c env.platformCtx) with
  | none => simp only [hrend]; rfl
  | some html =>
    simp only [hrend]
    rcases hconn : connection env st with ⟨cr, st', evs⟩
    have h0 : countSleeps evs = 0 := by
      have := countSleeps_connection env st
      rw [hconn] at this
      exact this
    cases cr with
    | error e =>
      simp only [hconn]
      simp only [countSleeps, List.countP_cons] at h0 ⊢
      simp [h0]
    | ok cn =>
      simp only [hconn]
      cases hat : attachAll env (a.getD []) with
      | error e =>
        simp only [hat]
        simp only [countSleeps, List.countP_cons] at h0 ⊢
        simp [h0]
      | ok u =>
        simp only [hat]
        simp only [countSleeps, List.countP_cons, List.countP_append] at h0 ⊢
        simp [h0]

lemma retry_attempt_false {env : Env} (hs : ∀ l, env.sendOk l = false)
    (rec : Record) (st : ServiceState) :
    (retry_attempt env rec st).1 = false := by
  unfold retry_attempt
  split
  · rfl
  · split
    · rfl
    · split
      · rfl
      · split
        · rfl
        · split
          · rfl
          · rename_i m st' evs heq
            rw [hs m.toRecipients]
            rfl

lemma retry_attempt_no_sleep (env : Env) (rec : Record) (st : ServiceState) :
    countSleeps (retry_attempt env rec st).2.2 = 0 := by
  unfold retry_attempt
  split
  · rfl
  · rename_i subv hsub
    split
    · rfl
    · rename_i tplv htpl
      split
      · rfl
      · rename_i ctxv hctx
        split
        · rfl
        · rename_i recv hrec
          have h0 := prepare_no_sleep env (recValStr subv) (recValStr tplv)
            (recValCtx ctxv) (.list [recValStr recv]) "medium" none st
          split
          · rename_i e st' evs heq
            rw [heq] at h0
            have h0' : countSleeps evs = 0 := h0
            simp only [countSleeps, List.countP_cons, List.countP_append]
              at h0' ⊢
            simp [h0']
          · rename_i m st' evs heq
            rw [heq] at h0
            have h0' : countSleeps evs = 0 := h0
            simp only [countSleeps, List.countP_cons, List.countP_append]
              at h0' ⊢
            split <;> simp [h0']

lemma retry_round_allfail {env : Env} (hs : ∀ l, env.sendOk l = false) :
    ∀ (pending : List Record) (st : ServiceState),
      (retry_round env pending st).1 = pending ∧
      countSleeps (retry_round env pending st).2.2 = 0 := by
  intro pending
  induction pending with
  | nil => intro st; exact ⟨rfl, rfl⟩
  | cons r rs ih =>
    intro st
    rcases hra : retry_attempt env r st with ⟨ok, st', evs⟩
    have hok : ok = false := by
      have := retry_attempt_false hs r st
      rw [hra] at this
      exact this
    subst hok
    have hsl : countSleeps evs = 0 := by
      have := retry_attempt_no_sleep env r st
      rw [hra] at this
      exact this
    rcases hrr : retry_round env rs st' with ⟨rest, st'', evs'⟩
    obtain ⟨h1, h2⟩ := ih st'
    rw [hrr] at h1 h2
    have h1' : rest = rs := h1
    have h2' : countSleeps evs' = 0 := h2
    constructor
    · simp only [retry_round, hra, hrr]
      rw [h1']
      simp
    · simp only [retry_round, hra, hrr]
      simp only [countSleeps, List.countP_append] at hsl h2' ⊢
      simp [hsl, h2']

/-- Claim C5 as amended: when every send attempt fails, a round never
removes records, and `time.sleep(delay)` fires after **every** round in
which records remain pending — including the final one.  With a nonempty
record list and `retries` rounds this gives exactly `retries` delays (so
three rounds produce three delays, not two), and the whole (mutated)
input collection remains at the end. -/
theorem C5_retry_all_fail (env : Env) (records : List Record)
    (retries delay : Nat) (st : ServiceState)
    (hs : ∀ l, env.sendOk l = false) (hne : records ≠ []) :
    (retry_failed_emails env records retries delay st).1 = records ∧
    countSleeps (retry_failed_emails env records retries delay st).2.2 =
      retries := by
  unfold retry_failed_emails
  induction retries generalizing st with
  | zero => exact ⟨rfl, rfl⟩
  | succ n ih =>
    obtain ⟨h1, h2⟩ := retry_round_allfail hs records st
    rcases hrr : retry_round env records st with ⟨pending', st', evs⟩
    rw [hrr] at h1 h2
    have h1' : pending' = records := h1
    have h2' : countSleeps evs = 0 := h2
    rw [h1'] at hrr
    have hemp : records.isEmpty = false := by
      cases records with
      | nil => exact absurd rfl hne
      | cons a l => rfl
    obtain ⟨ih1, ih2⟩ := ih st'
    constructor
    · simp only [retry_loop, hrr, hemp]
      simpa using ih1
    · simp only [retry_loop, hrr, hemp]
      simp only [countSleeps, List.countP_append, List.countP_cons,
        Bool.false_eq_true, if_false, List.countP_nil] at h2' ih2 ⊢
      simp [h2', ih2]
      omega

/-- A well-formed pending record as consumed by `retry_failed_emails`. -/
def retryRec (r : String) : Record :=
  [("recipient", .s r), ("subject", .s "S"),
   ("template_name", .s "tpl"), ("context", .c [])]

/-- Counterexample to claim C5 as stated.  Three pending records,
`attempts = 3`, every send failing (the transport refuses all messages):
all three records remain pending at the end — but the code performs **3**
delays (one after each round in which records remain pending, including
the final round), not the claimed 2. -/
theorem C5_counterexample :
    (retry_failed_emails { baseEnv with sendOk := fun _ => false }
        [retryRec "a@b.co", retryRec "b@b.co", retryRec "c@b.co"]
        3 5 initialState).1 =
      [retryRec "a@b.co", retryRec "b@b.co", retryRec "c@b.co"] ∧
    countSleeps (retry_failed_emails { baseEnv with sendOk := fun _ => false }
        [retryRec "a@b.co", retryRec "b@b.co", retryRec "c@b.co"]
        3 5 initialState).2.2 = 3 ∧
    ¬ (countSleeps (retry_failed_emails
        { baseEnv with sendOk := fun _ => false }
        [retryRec "a@b.co", retryRec "b@b.co", retryRec "c@b.co"]
        3 5 initialState).2.2 = 2) :=
  ⟨by decide, by decide, by decide⟩

/-- Witness for the amended C5 at the counterexample's concrete input. -/
theorem C5_retry_all_fail_witness :
    (retry_failed_emails { baseEnv with sendOk := fun _ => false }
        [retryRec "a@b.co", retryRec "b@b.co", retryRec "c@b.co"]
        3 5 initialState).1 =
      [retryRec "a@b.co", retryRec "b@b.co", retryRec "c@b.co"] ∧
    countSleeps (retry_failed_emails { baseEnv with sendOk := fun _ => false }
        [retryRec "a@b.co", retryRec "b@b.co", retryRec "c@b.co"]
        3 5 initialState).2.2 = 3 :=
  C5_retry_all_fail { baseEnv with sendOk := fun _ => false }
    [retryRec "a@b.co", retryRec "b@b.co", retryRec "c@b.co"] 3 5
    initialState (fun _ => rfl) (by decide)

lemma retry_attempt_nokey {env : Env} {rec : Record}
    (h : rec.lookup "subject" = none) (st : ServiceState) :
    retry_attempt env rec st = (false, st, [.logErr (.keyError "subject")]) := by
  have hget : recGet rec "subject" = .error (.keyError "subject") := by
    unfold recGet
    rw [h]
  unfold retry_attempt
  rw [hget]

lemma retry_round_nokey {env : Env} :
    ∀ (pending : List Record),
      (∀ rec ∈ pending, rec.lookup "subject" = none) →
      ∀ st : ServiceState,
        retry_round env pending st =
          (pending, st,
            pending.map (fun _ => Event.logErr (.keyError "subject"))) := by
  intro pending
  induction pending with
  | nil => intro _ st; rfl
  | cons r rs ih =>
    intro h st
    have hr : r.lookup "subject" = none := h r (List.mem_cons_self r rs)
    have hrs : ∀ rec ∈ rs, rec.lookup "subject" = none :=
      fun rec hrec => h rec (List.mem_cons_of_mem r hrec)
    simp only [retry_round, retry_attempt_nokey hr st, ih hrs st]
    rfl

lemma retry_loop_nokey {env : Env} {pending : List Record}
    (h : ∀ rec ∈ pending, rec.lookup "subject" = none) (delay : Nat) :
    ∀ (n : Nat) (st : ServiceState), ∃ evs,
      retry_loop env pending delay st n = (pending, st, evs) ∧
      ∀ e ∈ evs, e = .logErr (.keyError "subject") ∨ e = .sleep delay := by
  intro n
  induction n with
  | zero => intro st; exact ⟨[], rfl, by simp⟩
  | succ m ih =>
    intro st
    obtain ⟨evs', hloop, hmem⟩ := ih st
    refine ⟨pending.map (fun _ => Event.logErr (.keyError "subject")) ++
      ((if pending.isEmpty then [] else [Event.sleep delay]) ++ evs'), ?_, ?_⟩
    · simp only [retry_loop, retry_round_nokey pending h st, hloop]
      rw [List.append_assoc]
    · intro e he
      rcases List.mem_append.mp he with h1 | h23
      · left
        obtain ⟨-, -, rfl⟩ := List.mem_map.mp h1
        rfl
      · rcases List.mem_append.mp h23 with h2 | h3
        · right
          rcases hemp : pending.isEmpty with _ | _ <;> rw [hemp] at h2
          · simp at h2
            exact h2
          · simp at h2
        · exact hmem e h3

lemma failRecs_nokey (env : Env) (chs : List (List String)) :
    ∀ rec ∈ failRecs env chs, rec.lookup "subject" = none := by
  intro rec hrec
  obtain ⟨r, -, rfl⟩ := List.mem_map.mp hrec
  rfl

/-- Claim C10: the failure records produced by `send_batch_emails` carry
only the keys `recipient` and `error`; feeding that list to
`retry_failed_emails` removes nothing — every per-record attempt raises
`KeyError: 'subject'` while evaluating the rebuild arguments, before any
message build or send, and is caught and logged as a retry failure — so
after all rounds the collection and the service state are unchanged, the
only events are the key-error logs and the inter-round sleeps, and no
transport send for those records ever happens (let alone succeeds). -/
theorem C10_batch_records_unretryable (env : Env) (template_name : String)
    (context : Ctx) (recipient_list : List String) (subject : String)
    (st : ServiceState) (hc : env.connectOk = true) {html : String}
    (hr : env.render (templatePath template_name)
        (pyUpdate context env.platformCtx) = some html) :
    ∃ res st1 evs1,
      send_batch_emails env template_name context recipient_list subject st =
        (.ok res, st1, evs1) ∧
      (∀ rec ∈ res.failed_recipients, rec.lookup "subject" = none) ∧
      ∀ (retries delay : Nat) (st2 : ServiceState), ∃ evs2,
        retry_failed_emails env res.failed_recipients retries delay st2 =
          (res.failed_recipients, st2, evs2) ∧
        (∀ e ∈ evs2, e = .logErr (.keyError "subject") ∨ e = .sleep delay) ∧
        countSendOne evs2 = 0 ∧
        sentChunks evs2 = [] := by
  obtain ⟨st', evs, hgo, -⟩ := send_batch_go_ok subject template_name context
    hc hr (chunkList env.BATCH_SIZE recipient_list) st
  refine ⟨⟨sumOk env (chunkList env.BATCH_SIZE recipient_list),
           sumFail env (chunkList env.BATCH_SIZE recipient_list),
           failRecs env (chunkList env.BATCH_SIZE recipient_list)⟩,
    st', evs, ?_, failRecs_nokey env _, ?_⟩
  · unfold send_batch_emails
    rw [hgo]
  · intro retries delay st2
    obtain ⟨evs2, hloop, hmem⟩ :=
      retry_loop_nokey (failRecs_nokey env _) delay retries st2
    refine ⟨evs2, hloop, hmem, ?_, ?_⟩
    · unfold countSendOne
      rw [List.countP_eq_zero]
      intro e he
      rcases hmem e he with rfl | rfl <;> simp
    · unfold sentChunks
      rw [List.filterMap_eq_nil_iff]
      intro e he
      rcases hmem e he with rfl | rfl <;> rfl

/-- Witness for C10: one recipient, a transport that rejects its chunk,
and two retry rounds over the produced record. -/
theorem C10_batch_records_unretryable_witness :
    ∃ res st1 evs1,
      send_batch_emails { baseEnv with sendMessagesOk := fun _ => false }
          "tpl" [] ["a@b.co"] "S" initialState = (.ok res, st1, evs1) ∧
      (∀ rec ∈ res.failed_recipients, rec.lookup "subject" = none) ∧
      ∀ (retries delay : Nat) (st2 : ServiceState), ∃ evs2,
        retry_failed_emails { baseEnv with sendMessagesOk := fun _ => false }
            res.failed_recipients retries delay st2 =
          (res.failed_recipients, st2, evs2) ∧
        (∀ e ∈ evs2, e = .logErr (.keyError "subject") ∨ e = .sleep delay) ∧
        countSendOne evs2 = 0 ∧
        sentChunks evs2 = [] :=
  C10_batch_records_unretryable
    { baseEnv with sendMessagesOk := fun _ => false }
    "tpl" [] ["a@b.co"] "S" initialState rfl rfl

/-- Witness for C1: the validator accepts a well-formed address (shown by
instantiating the equivalence with an explicit regex decomposition),
accepts the same address followed by one trailing newline (the `$`
corner of Python `re.match`, via the spec's second disjunct), and
rejects a malformed address. -/
theorem C1_validate_email_witness :
    validate_email "user@example.com" = true ∧
    validate_email "user@example.com\n" = true ∧
    validate_email "invalid-email" = false :=
  ⟨(C1_validate_email "user@example.com").mpr
    ⟨by decide,
     Or.inl ⟨['u', 's', 'e', 'r'],
      ['e', 'x', 'a', 'm', 'p', 'l', 'e'],
      ['c', 'o', 'm'],
      by decide, by decide, by decide, by decide, by decide, by decide,
      by decide⟩,
     by decide, by decide⟩,
   (C1_validate_email "user@example.com\n").mpr
    ⟨by decide,
     Or.inr ⟨"user@example.com".data, by decide,
      ⟨['u', 's', 'e', 'r'],
       ['e', 'x', 'a', 'm', 'p', 'l', 'e'],
       ['c', 'o', 'm'],
       by decide, by decide, by decide, by decide, by decide, by decide,
       by decide⟩⟩,
     by decide, by decide⟩,
   by decide⟩

end WaanverseMailer
